import Mathlib

/-!
Shallow embedding of the active monitoring loop of `headD.py` (lines 136-285).

The program reads frames, detects faces, estimates head pose per face via a
PnP solve, thresholds the yaw angle into a `head_abnormal` flag, and — only
when the head is abnormal — appends an iris-offset sample to a global
FIFO window `gaze_sequence` and classifies oscillation into `gaze_abnormal`.

Numeric conventions of the embedding:
* Python floats are modelled as `ℚ` (all values the program compares are
  exact dyadic rationals: sums, halves and thresholds of integers).
* Python `int(x)` truncation toward zero on an exact half is `Int.tdiv _ 2`.
* Landmarks are pixel-space integer pairs, as produced by
  `int(l.x * w), int(l.y * h)` (line 170); a face is its landmark list.
* The external numeric pose pipeline (`cv2.solvePnP` + `Rodrigues` +
  `RQDecomp3x3`, lines 204-212) is an oracle parameter `solve` returning the
  success flag and the decomposed angles; everything downstream of it is
  embedded from the source.
-/

namespace Zyph

/-- Landmark set of one detected face: pixel-coordinate points, indexed by the
fixed anatomical scheme (line 170). -/
abbrev Landmarks := List (ℤ × ℤ)

/-- Result of the external pose solve (lines 204-212): the `success` flag
returned by `cv2.solvePnP` and the three angles from `cv2.RQDecomp3x3`,
`angles[0]=pitch, angles[1]=yaw, angles[2]=roll`, in degrees. -/
structure Pose where
  success : Bool
  pitch : ℚ
  yaw : ℚ
  roll : ℚ

/-- `GAZE_THRESHOLD = 6` (line 150). -/
def GAZE_THRESHOLD : ℚ := 6

/-- `SEQUENCE_LENGTH = 6` (line 151). -/
def SEQUENCE_LENGTH : ℕ := 6

/-- Camera intrinsic matrix (lines 193-200): focal length `w`, principal
point `(w/2, h/2)`. -/
def camera_matrix (w h : ℕ) : Matrix (Fin 3) (Fin 3) ℚ :=
  let focal_length : ℚ := w
  let center : ℚ × ℚ := ((w : ℚ) / 2, (h : ℚ) / 2)
  !![focal_length, 0, center.1; 0, focal_length, center.2; 0, 0, 1]

/-- `dist_coeffs = np.zeros((4, 1))` (line 202). -/
def dist_coeffs : Matrix (Fin 4) (Fin 1) ℚ := fun _ _ => 0

/-- The camera model the specification describes: intrinsics
`[[W, 0, W/2], [0, W, H/2], [0, 0, 1]]`.  Stated from the spec's words, to be
compared with `camera_matrix` built from the source. -/
def cameraMatrixSpec (w h : ℕ) : Matrix (Fin 3) (Fin 3) ℚ :=
  !![(w : ℚ), 0, (w : ℚ) / 2; 0, (w : ℚ), (h : ℚ) / 2; 0, 0, 1]

/-- Per-frame gaze sample (lines 221-248): average of the two horizontal
iris-to-eye-center offsets.  Eye centers are `int((left + right) / 2)`
(truncation toward zero, `Int.tdiv`); the final average `(l + r) / 2` is
Python float division, exact in `ℚ`. -/
def gazeSample (landmarks : Landmarks) : ℚ :=
  let left_iris := landmarks.getD 468 (0, 0)
  let right_iris := landmarks.getD 473 (0, 0)
  let left_eye_left := landmarks.getD 33 (0, 0)
  let left_eye_right := landmarks.getD 133 (0, 0)
  let right_eye_left := landmarks.getD 362 (0, 0)
  let right_eye_right := landmarks.getD 263 (0, 0)
  let left_eye_center_x : ℤ := Int.tdiv (left_eye_left.1 + left_eye_right.1) 2
  let right_eye_center_x : ℤ := Int.tdiv (right_eye_left.1 + right_eye_right.1) 2
  let left_offset : ℤ := left_iris.1 - left_eye_center_x
  let right_offset : ℤ := right_iris.1 - right_eye_center_x
  ((left_offset + right_offset : ℤ) : ℚ) / 2

/-- Window update (lines 251-254): `gaze_sequence.append(avg_offset)` followed
by `if len(gaze_sequence) > SEQUENCE_LENGTH: gaze_sequence.pop(0)`. -/
def pushSample (gaze_sequence : List ℚ) (avg_offset : ℚ) : List ℚ :=
  let w' := gaze_sequence ++ [avg_offset]
  if w'.length > SEQUENCE_LENGTH then w'.tail else w'

/-- Python `max` of a nonempty list. -/
def listMax : List ℚ → ℚ
  | [] => 0
  | x :: xs => xs.foldl max x

/-- Python `min` of a nonempty list. -/
def listMin : List ℚ → ℚ
  | [] => 0
  | x :: xs => xs.foldl min x

/-- Oscillation classification (lines 256-259): starting from the per-frame
default `gaze_abnormal = 0` (line 166), set the flag to 1 exactly when the
window is full and `max(gaze_sequence) > GAZE_THRESHOLD and
min(gaze_sequence) < -GAZE_THRESHOLD`. -/
def gazeClassify (gaze_sequence : List ℚ) : ℕ :=
  if gaze_sequence.length = SEQUENCE_LENGTH ∧
      listMax gaze_sequence > GAZE_THRESHOLD ∧
      listMin gaze_sequence < -GAZE_THRESHOLD then 1 else 0

/-- Head classification (lines 214-216): starting from the per-frame default
`head_abnormal = 0` (line 165), set the flag to 1 exactly when
`abs(head_angle) > 10` where `head_angle = yaw`. -/
def headAbnormal (yaw : ℚ) : ℕ :=
  if |yaw| > 10 then 1 else 0

/-- The per-face loop (lines 169-212): for each face the landmark list is
rebuilt and the pose solve is run, overwriting the loop variables
`landmarks` / `yaw`; after the loop only the last face's values remain.
`none` means no face was detected (the `if results.multi_face_landmarks`
guard, line 168). -/
def faceLoop (solve : Landmarks → Pose) (faces : List Landmarks) :
    Option (Landmarks × Pose) :=
  faces.foldl (fun _ face => some (face, solve face)) none

/-- One iteration of the main loop, frame-acquisition and drawing stripped
(lines 165-259).  Input: the pose oracle, the detected faces, and the global
`gaze_sequence`.  Output: `(head_abnormal, gaze_abnormal, gaze_sequence)`.
Note the source unpacks `success` from `cv2.solvePnP` (line 204) but never
reads it: the embedding faithfully ignores `(solve _).success`.  The whole
gaze block (lines 218-259) is nested under `if abs(head_angle) > 10`. -/
def processFrame (solve : Landmarks → Pose) (faces : List Landmarks)
    (gaze_sequence : List ℚ) : ℕ × ℕ × List ℚ :=
  match faceLoop solve faces with
  | none => (0, 0, gaze_sequence)
  | some (landmarks, pose) =>
    let head_angle := pose.yaw
    if |head_angle| > 10 then
      let avg_offset := gazeSample landmarks
      let w' := pushSample gaze_sequence avg_offset
      (1, gazeClassify w', w')
    else
      (0, 0, gaze_sequence)

/-- Several iterations of the main loop: the flags are recomputed from their
zero defaults every frame, the window persists across frames. -/
def runFrames (solve : Landmarks → Pose) (frames : List (List Landmarks))
    (gaze_sequence : List ℚ) : ℕ × ℕ × List ℚ :=
  frames.foldl (fun st faces => processFrame solve faces st.2.2)
    (0, 0, gaze_sequence)

/-- A face whose landmark list has both iris x-coordinates equal to `k` and
all other landmarks at the origin, so that its gaze sample is `k`. -/
def mkFace (k : ℤ) : Landmarks :=
  ((List.replicate 474 ((0 : ℤ), (0 : ℤ))).set 468 (k, 0)).set 473 (k, 0)

/-- Pose oracle reporting a successful solve with yaw 25 degrees. -/
def solveAbnormal : Landmarks → Pose :=
  fun _ => { success := true, pitch := 0, yaw := 25, roll := 0 }

/-- Pose oracle modelling a degenerate solve: `cv2.solvePnP` reports
`success = False`, the leftover rotation decomposing to yaw 25 degrees. -/
def solveFailed : Landmarks → Pose :=
  fun _ => { success := false, pitch := 0, yaw := 25, roll := 0 }

/-- A run whose head-abnormal face frames (samples 8, -8, 8, -8, 8, -8) are
interleaved with face-free frames. -/
def oscFrames : List (List Landmarks) :=
  [[mkFace 8], [], [mkFace (-8)], [], [mkFace 8], [], [mkFace (-8)], [],
    [mkFace 8], [], [mkFace (-8)]]

theorem faceLoop_concat (solve : Landmarks → Pose) (fs : List Landmarks)
    (f : Landmarks) : faceLoop solve (fs ++ [f]) = some (f, solve f) := by
  simp [faceLoop, List.foldl_append]

theorem processFrame_concat (solve : Landmarks → Pose) (fs : List Landmarks)
    (f : Landmarks) (w : List ℚ) :
    processFrame solve (fs ++ [f]) w = processFrame solve [f] w := by
  have h : faceLoop solve [f] = some (f, solve f) := rfl
  rw [processFrame, processFrame, faceLoop_concat, h]

theorem pushSample_length (w : List ℚ) (s : ℚ) (h : w.length ≤ SEQUENCE_LENGTH) :
    (pushSample w s).length ≤ SEQUENCE_LENGTH := by
  unfold pushSample
  dsimp only
  split
  · next hgt =>
    simp only [List.length_tail, List.length_append, List.length_cons,
      List.length_nil, SEQUENCE_LENGTH] at *
    omega
  · next hle =>
    simp only [List.length_append, List.length_cons, List.length_nil,
      SEQUENCE_LENGTH] at *
    omega

theorem foldl_pushSample_length (samples : List ℚ) :
    ∀ w : List ℚ, w.length ≤ SEQUENCE_LENGTH →
      (samples.foldl pushSample w).length ≤ SEQUENCE_LENGTH := by
  induction samples with
  | nil => intro w h; simpa using h
  | cons s rest ih =>
    intro w h
    exact ih (pushSample w s) (pushSample_length w s h)

theorem pushSample_drop (w : List ℚ) (s : ℚ) :
    pushSample w s =
      w.drop (if SEQUENCE_LENGTH ≤ w.length then 1 else 0) ++ [s] := by
  cases w with
  | nil => simp [pushSample, SEQUENCE_LENGTH]
  | cons x t =>
    by_cases h : SEQUENCE_LENGTH ≤ (x :: t).length
    · rw [if_pos h]
      unfold pushSample
      dsimp only
      rw [if_pos]
      · simp
      · simp only [List.length_append, List.length_cons, List.length_nil,
          SEQUENCE_LENGTH] at h ⊢
        omega
    · rw [if_neg h]
      unfold pushSample
      dsimp only
      rw [if_neg]
      · simp
      · simp only [List.length_append, List.length_cons, List.length_nil,
          SEQUENCE_LENGTH] at h ⊢
        omega

theorem gazeClassify_le_one (w : List ℚ) : gazeClassify w ≤ 1 := by
  unfold gazeClassify
  split <;> simp

set_option maxRecDepth 8000 in
theorem gs8 : gazeSample (mkFace 8) = 8 := by
  have h : gazeSample (mkFace 8) = ((16 : ℤ) : ℚ) / 2 := rfl
  rw [h]; norm_num

set_option maxRecDepth 8000 in
theorem gsn8 : gazeSample (mkFace (-8)) = -8 := by
  have h : gazeSample (mkFace (-8)) = ((-16 : ℤ) : ℚ) / 2 := rfl
  rw [h]; norm_num

theorem pf_osc8 (w : List ℚ) : processFrame solveAbnormal [mkFace 8] w =
    (1, gazeClassify (pushSample w 8), pushSample w 8) := by
  have h : faceLoop solveAbnormal [mkFace 8] =
      some (mkFace 8, solveAbnormal (mkFace 8)) := rfl
  rw [processFrame, h]
  dsimp only
  rw [if_pos (by decide : |(Pose.yaw (solveAbnormal (mkFace 8)))| > 10)]
  rw [gs8]

theorem pf_oscn8 (w : List ℚ) : processFrame solveAbnormal [mkFace (-8)] w =
    (1, gazeClassify (pushSample w (-8)), pushSample w (-8)) := by
  have h : faceLoop solveAbnormal [mkFace (-8)] =
      some (mkFace (-8), solveAbnormal (mkFace (-8))) := rfl
  rw [processFrame, h]
  dsimp only
  rw [if_pos (by decide : |(Pose.yaw (solveAbnormal (mkFace (-8))))| > 10)]
  rw [gsn8]

theorem pf_noface (solve : Landmarks → Pose) (w : List ℚ) :
    processFrame solve [] w = (0, 0, w) := rfl

/-- Claim C1: once the gaze window holds exactly SEQUENCE_LENGTH = 6 samples,
gaze_abnormal is 1 if and only if the maximum sample exceeds GAZE_THRESHOLD
and the minimum sample is below -GAZE_THRESHOLD, with no ordering requirement
on where the extremes appear; in particular [8, -8, 8, -8, 8, -8] yields 1
and [8, 8, 8, 8, 8, 8] yields 0. -/
theorem oscillation_iff_extremes (a b c d e f : ℚ) :
    (gazeClassify [a, b, c, d, e, f] = 1 ↔
      listMax [a, b, c, d, e, f] > GAZE_THRESHOLD ∧
      listMin [a, b, c, d, e, f] < -GAZE_THRESHOLD) ∧
    gazeClassify [8, -8, 8, -8, 8, -8] = 1 ∧
    gazeClassify [8, 8, 8, 8, 8, 8] = 0 := by
  refine ⟨?_, by decide, by decide⟩
  by_cases hP : listMax [a, b, c, d, e, f] > GAZE_THRESHOLD ∧
      listMin [a, b, c, d, e, f] < -GAZE_THRESHOLD
  · unfold gazeClassify
    rw [if_pos ⟨rfl, hP.1, hP.2⟩]
    exact iff_of_true rfl hP
  · unfold gazeClassify
    rw [if_neg (fun hc => hP ⟨hc.2.1, hc.2.2⟩)]
    exact iff_of_false (by decide) hP

/-- Claim C2: the head classifier sets head_abnormal = 1 exactly when
|yaw| > 10 and 0 otherwise; it is a stateless single-frame threshold on yaw
alone (the frame's head flag equals the classifier applied to the last
face's yaw, whatever the pitch, roll or window contents); yaw 9.9 gives 0,
yaw 10.1 gives 1, yaw -15 gives 1. -/
theorem head_abnormal_iff_yaw (yaw : ℚ) :
    (headAbnormal yaw = 1 ↔ |yaw| > 10) ∧
    (headAbnormal yaw = 0 ↔ ¬|yaw| > 10) ∧
    (∀ (solve : Landmarks → Pose) (fs : List Landmarks) (f : Landmarks)
      (w : List ℚ),
      (processFrame solve (fs ++ [f]) w).1 = headAbnormal (solve f).yaw) ∧
    headAbnormal (99 / 10) = 0 ∧ headAbnormal (101 / 10) = 1 ∧
    headAbnormal (-15) = 1 := by
  refine ⟨?_, ?_, ?_, by norm_num [headAbnormal, abs],
    by norm_num [headAbnormal, abs], by decide⟩
  · by_cases h : |yaw| > 10 <;> simp [headAbnormal, h]
  · by_cases h : |yaw| > 10 <;> simp [headAbnormal, h]
  · intro solve fs f w
    rw [processFrame_concat]
    have hfl : faceLoop solve [f] = some (f, solve f) := rfl
    rw [processFrame, hfl]
    dsimp only
    by_cases h : |(solve f).yaw| > 10
    · rw [if_pos h, headAbnormal, if_pos h]
    · rw [if_neg h, headAbnormal, if_neg h]

/-- Claim C3: the source unpacks the success flag of the PnP solve but never
reads it, so on a degenerate solve (oracle reporting success = false on the
all-collinear face) nothing is signaled and classification is NOT skipped:
the frame output is entirely independent of the success flag, and the
degenerate frame still classifies head_abnormal = 1 from the fabricated
angle — the code contradicts the claim. -/
theorem solve_failure_ignored :
    (∀ (p y r : ℚ) (faces : List Landmarks) (w : List ℚ),
      processFrame (fun _ => ⟨false, p, y, r⟩) faces w =
        processFrame (fun _ => ⟨true, p, y, r⟩) faces w) ∧
    (processFrame solveFailed [mkFace 0] []).1 = 1 := by
  refine ⟨?_, by decide⟩
  intro p y r faces w
  induction faces using List.reverseRecOn with
  | nil => rfl
  | append_singleton fs f _ =>
    rw [processFrame_concat, processFrame_concat]
    rfl

set_option maxHeartbeats 1000000 in
/-- Claim C4: the window never exceeds SEQUENCE_LENGTH = 6 samples, and
eviction is strictly oldest-first FIFO: appending any 7 samples to the empty
window leaves exactly the last 6 in their original relative order (the first
sample's slot is gone). -/
theorem window_capacity_fifo :
    (∀ samples : List ℚ,
      (samples.foldl pushSample []).length ≤ SEQUENCE_LENGTH) ∧
    (∀ s0 s1 s2 s3 s4 s5 s6 : ℚ,
      [s0, s1, s2, s3, s4, s5, s6].foldl pushSample [] =
        [s1, s2, s3, s4, s5, s6]) := by
  constructor
  · intro samples
    exact foldl_pushSample_length samples [] (by decide)
  · intro s0 s1 s2 s3 s4 s5 s6
    rfl

/-- Claim C5: whenever the gaze window holds fewer than SEQUENCE_LENGTH = 6
samples after the frame's update, the frame's gaze_abnormal flag is 0,
whatever the magnitudes of the collected samples (cold-start policy). -/
theorem cold_start_zero (solve : Landmarks → Pose) (faces : List Landmarks)
    (w : List ℚ)
    (h : (processFrame solve faces w).2.2.length < SEQUENCE_LENGTH) :
    (processFrame solve faces w).2.1 = 0 := by
  induction faces using List.reverseRecOn with
  | nil => rfl
  | append_singleton fs f _ =>
    rw [processFrame_concat] at h ⊢
    have hfl : faceLoop solve [f] = some (f, solve f) := rfl
    rw [processFrame, hfl] at h ⊢
    dsimp only at h ⊢
    by_cases hy : |(solve f).yaw| > 10
    · rw [if_pos hy] at h ⊢
      dsimp only at h ⊢
      unfold gazeClassify
      rw [if_neg]
      exact fun hc => lt_irrefl _ (hc.1 ▸ h)
    · rw [if_neg hy]

theorem cold_start_zero_witness :
    (processFrame solveAbnormal [mkFace 0] []).2.2.length < SEQUENCE_LENGTH ∧
    (processFrame solveAbnormal [mkFace 0] []).2.1 = 0 :=
  ⟨by decide, cold_start_zero solveAbnormal [mkFace 0] [] (by decide)⟩

/-- Claim C6: gaze analysis runs only in frames whose head pose is abnormal:
the gaze flag never exceeds the head flag (so gaze_abnormal = 1 never occurs
with head_abnormal = 0), and any frame with head_abnormal = 0 emits (0, 0)
and leaves the window untouched. -/
theorem gaze_gated_on_head (solve : Landmarks → Pose) (faces : List Landmarks)
    (w : List ℚ) :
    (processFrame solve faces w).2.1 ≤ (processFrame solve faces w).1 ∧
    ((processFrame solve faces w).1 = 1 ∨
      processFrame solve faces w = (0, 0, w)) := by
  induction faces using List.reverseRecOn with
  | nil => exact ⟨le_refl 0, Or.inr rfl⟩
  | append_singleton fs f _ =>
    rw [processFrame_concat]
    have hfl : faceLoop solve [f] = some (f, solve f) := rfl
    rw [processFrame, hfl]
    dsimp only
    by_cases hy : |(solve f).yaw| > 10
    · rw [if_pos hy]
      exact ⟨gazeClassify_le_one _, Or.inl rfl⟩
    · rw [if_neg hy]
      exact ⟨le_refl 0, Or.inr rfl⟩

/-- Claim C7: for positive frame dimensions the camera model builder is a
pure function returning the intrinsic matrix [[W, 0, W/2], [0, W, H/2],
[0, 0, 1]] together with the zero 4-vector distortion model. -/
theorem camera_model_matches_spec (w h : ℕ) (_hw : 0 < w) (_hh : 0 < h) :
    camera_matrix w h = cameraMatrixSpec w h ∧
    dist_coeffs = fun _ _ => (0 : ℚ) :=
  ⟨rfl, rfl⟩

theorem camera_model_matches_spec_witness :
    (0 < 640 ∧ 0 < 480) ∧
    (camera_matrix 640 480 = cameraMatrixSpec 640 480 ∧
      dist_coeffs = fun _ _ => (0 : ℚ)) :=
  ⟨⟨by decide, by decide⟩,
    camera_model_matches_spec 640 480 (by decide) (by decide)⟩

/-- Claim C8: a frame with zero detected faces performs no pose or gaze
computation: both flags are 0 and the gaze window is unchanged, for every
pose oracle and prior window (recovered locally, never an error). -/
theorem no_face_defaults (solve : Landmarks → Pose) (w : List ℚ) :
    processFrame solve [] w = (0, 0, w) := rfl

/-- Claim C9: the per-face loop computes each face's pose but overwrites the
working variables, so only the last face survives the loop and the frame's
output equals processing that last face alone (last-wins). -/
theorem last_face_wins (solve : Landmarks → Pose) (fs : List Landmarks)
    (f : Landmarks) (w : List ℚ) :
    faceLoop solve (fs ++ [f]) = some (f, solve f) ∧
    processFrame solve (fs ++ [f]) w = processFrame solve [f] w :=
  ⟨faceLoop_concat solve fs f, processFrame_concat solve fs f w⟩

/-- Claim C10: a frame either leaves the window unchanged or appends the last
face's sample while dropping at most the single oldest entry (one only when
the window is already at capacity) — never more, never a clear; and a full
oscillating window can be assembled across non-consecutive frames, samples
persisting through face-free frames, ending with gaze_abnormal = 1. -/
theorem window_persistence (solve : Landmarks → Pose) (faces : List Landmarks)
    (w : List ℚ) :
    ((processFrame solve faces w).2.2 = w ∨
      (processFrame solve faces w).2.2 =
        w.drop (if SEQUENCE_LENGTH ≤ w.length then 1 else 0) ++
          [gazeSample ((faces.getLast?).getD [])]) ∧
    (runFrames solveAbnormal oscFrames []).2.1 = 1 := by
  constructor
  · induction faces using List.reverseRecOn with
    | nil => exact Or.inl rfl
    | append_singleton fs f _ =>
      rw [processFrame_concat]
      have hfl : faceLoop solve [f] = some (f, solve f) := rfl
      rw [processFrame, hfl]
      dsimp only
      by_cases hy : |(solve f).yaw| > 10
      · rw [if_pos hy]
        refine Or.inr ?_
        rw [List.getLast?_concat]
        exact pushSample_drop w (gazeSample f)
      · rw [if_neg hy]
        exact Or.inl rfl
  · simp only [runFrames, oscFrames, List.foldl_cons, List.foldl_nil,
      pf_osc8, pf_oscn8, pf_noface]
    decide

end Zyph
